import Mathlib

/-!
Shallow embedding of the toolbxrevops relay server (server.js, current
revision) in Lean 4, together with theorems checking the natural-language
specification against it.

Modelling conventions:
* Machine time is a `Nat` count of seconds (JWT timestamps).
* JavaScript primitive values that the code stringifies or tests for
  truthiness are modelled by `JsPrim` (a number or a string); `undefined`
  and `null` are modelled by `Option`.
* The upstream HubSpot API is an oracle: each handler receives the results
  the upstream would produce, and returns alongside its HTTP response the
  list of upstream calls it actually issued, in order.
* A handler never throws: the `catch` blocks of the source are modelled by
  returning the corresponding error `Response`.
-/

namespace Toolbx

/-- A JavaScript primitive as it matters to this code: a number or a string.
Only integral numbers appear in the modelled flows. -/
inductive JsPrim where
  | num (n : Int)
  | str (s : String)
deriving DecidableEq, Repr

/-- The result of `String(v)` on a primitive. -/
def JsPrim.toJsString : JsPrim → String
  | .num n => toString n
  | .str s => s

/-- JavaScript truthiness of a primitive: `0` and the empty string are falsy. -/
def JsPrim.truthy : JsPrim → Bool
  | .num n => n ≠ 0
  | .str s => s ≠ ""

/-- JavaScript `a || b` on an optional string with a default: a present,
non-empty (truthy) string wins, otherwise the default is used. -/
def jsOrStr (o : Option String) (d : String) : String :=
  match o with
  | some s => if s ≠ "" then s else d
  | none => d

/-! ## JWT (jsonwebtoken semantics)

`jwt.sign({ dealId: String(dealId) }, JWT_SECRET, { expiresIn: '5m' })`
produces a payload with `iat = now` and `exp = now + 300`.
`jwt.verify(t, JWT_SECRET, { clockTolerance: 5 })` first checks the
signature, then rejects as expired exactly when
`clockTimestamp >= exp + clockTolerance` (jsonwebtoken `verify.js`). -/

/-- Decoded JWT payload as this server mints it. -/
structure Payload where
  dealId : String
  iat : Nat
  exp : Nat
deriving DecidableEq, Repr

/-- A signed token: the payload plus the secret it was signed with.  A
signature verifies exactly when the verifying secret equals the signing
secret; the wire encoding is not modelled. -/
structure Token where
  payload : Payload
  secret : String
deriving DecidableEq, Repr

/-- Outcomes of `jwt.verify` that this server can observe. -/
inductive VerifyError where
  | missingToken
  | invalidSignature
  | expired
deriving DecidableEq, Repr

/-- Error message carried by each `jwt.verify` failure (jsonwebtoken texts). -/
def verifyErrMessage : VerifyError → String
  | .missingToken => "jwt must be provided"
  | .invalidSignature => "invalid signature"
  | .expired => "jwt expired"

/-- The `clockTolerance: 5` option passed to every `jwt.verify` call. -/
def clockTolerance : Nat := 5

/-- Model of `jwt.sign({ dealId }, secret, { expiresIn: '5m' })` at time
`now`: five minutes is 300 seconds. -/
def jwtSign (dealId : String) (secret : String) (now : Nat) : Token :=
  { payload := { dealId := dealId, iat := now, exp := now + 300 }, secret := secret }

/-- Model of `jwt.verify(t, secret, { clockTolerance: tol })` at time `now`:
signature first, then the expiry check `now >= exp + tol`. -/
def jwtVerify (t : Token) (secret : String) (tol : Nat) (now : Nat) :
    Except VerifyError Payload :=
  if t.secret ≠ secret then .error .invalidSignature
  else if t.payload.exp + tol ≤ now then .error .expired
  else .ok t.payload

/-- Verification of an optional token: `jwt.verify(undefined, ...)` throws
`jwt must be provided`. -/
def jwtVerifyOpt (t : Option Token) (secret : String) (tol : Nat) (now : Nat) :
    Except VerifyError Payload :=
  match t with
  | none => .error .missingToken
  | some tok => jwtVerify tok secret tol now

/-! ## Config loader (`calc.config.json`) -/

/-- One entry of the configured `features` array; only `fromDealProperty`
matters to the server (`undefined` and non-string values other than the
empty string are not distinguished from absence beyond truthiness, so the
field is an optional string). -/
structure Feature where
  fromDealProperty : Option String
deriving DecidableEq, Repr

/-- The `lineItems` catalog of the config file.  The server never inspects
its contents, only substitutes `{ standard: [], options: [] }` when the
field is absent. -/
structure LineItemsCatalog where
  standard : List String
  options : List String
deriving DecidableEq, Repr

/-- The in-memory `CALC_CFG` shape. -/
structure CalcCfg where
  features : List Feature
  lineItems : LineItemsCatalog
deriving DecidableEq, Repr

/-- The default assigned on any load failure (and the initial value). -/
def defaultCfg : CalcCfg :=
  { features := [], lineItems := { standard := [], options := [] } }

/-- The parsed JSON document before normalisation: `features` may be absent
or not an array, and `lineItems` may be absent (`undefined`/`null`). -/
structure RawCfg where
  featuresArr : Option (List Feature)
  lineItems : Option LineItemsCatalog
deriving DecidableEq, Repr

/-- Model of `loadConfig()`.  The argument is the outcome of
`fs.readFileSync` + `JSON.parse`: `none` models any read or parse failure
(the `catch` branch), `some cfg` a successfully parsed document, which is
then normalised exactly as the source does
(`Array.isArray(cfg.features) ? cfg.features : []`,
`cfg.lineItems || { standard: [], options: [] }`). -/
def loadConfig (readResult : Option RawCfg) : CalcCfg :=
  match readResult with
  | none => defaultCfg
  | some cfg =>
    { features := cfg.featuresArr.getD []
      lineItems := cfg.lineItems.getD { standard := [], options := [] } }

/-! ## HTTP responses and upstream calls -/

/-- Upstream (axios) failure: `status`/`data` come from `e.response` when an
HTTP response exists, `message` is the Error message. -/
structure UpstreamErr where
  status : Option Nat
  data : Option String
  message : String
deriving DecidableEq, Repr

/-- Line-item properties object built by `toLineItemProperties`; `none`
models a key the source leaves absent. -/
structure LineItemProps where
  name : String
  price : String
  quantity : String
  hs_line_item_currency_code : String
  hs_discount_percentage : Option String
  hs_discount_amount : Option String
  recurringbillingfrequency : Option String
deriving DecidableEq, Repr

/-- A typed association carried by a batch-create input. -/
structure Association where
  targetId : String
  associationCategory : String
  associationTypeId : Nat
deriving DecidableEq, Repr

/-- One element of a batch-create or batch-update `inputs` array.  `id` is
present exactly for updates; an absent `associations` key is modelled as the
empty list. -/
structure BatchInput where
  id : Option String
  properties : LineItemProps
  associations : List Association
deriving DecidableEq, Repr

/-- The upstream HubSpot calls the server can issue, carrying the data each
request sends. -/
inductive UpstreamCall where
  | getDeal (id : String) (props : List String)
  | patchDeal (id : String) (properties : List (String × String))
  | getAssociationsPage (dealId : String) (after : Option String)
  | batchRead (ids : List String)
  | batchCreate (inputs : List BatchInput)
  | batchUpdate (inputs : List BatchInput)
deriving DecidableEq, Repr

/-- Body of an HTTP response from this server: plain text, a JSON error
object (`error` field, optional `message`, optional relayed `hubspot` body),
or a JSON success body whose contents the embedding does not track. -/
inductive RespBody where
  | text (s : String)
  | errorJson (error : String) (message : Option String) (hubspot : Option String)
  | okJson
deriving DecidableEq, Repr

/-- Whether a body is a JSON object carrying an `error` field. -/
def RespBody.hasErrorField : RespBody → Bool
  | .errorJson _ _ _ => true
  | _ => false

/-- An HTTP response of this server. -/
structure Response where
  status : Nat
  body : RespBody
deriving DecidableEq, Repr

/-- The `catch` branch shared by all async handlers when the thrown error is
a `jwt.verify` failure: no `e.response`, so `e?.response?.status || 500`
is 500 and no `hubspot` body is attached. -/
def verifyCatch (name : String) (e : VerifyError) : Response :=
  { status := 500, body := .errorJson name (some (verifyErrMessage e)) none }

/-- The `catch` branch when the thrown error is an axios upstream failure:
`res.status(e?.response?.status || 500).json({ error, message, hubspot })`. -/
def upstreamCatch (name : String) (e : UpstreamErr) : Response :=
  { status := e.status.getD 500, body := .errorJson name (some e.message) e.data }

/-- The `res.status(403).json({ error: 'Deal mismatch' })` response. -/
def mismatch403 : Response :=
  { status := 403, body := .errorJson "Deal mismatch" none none }

/-! ## Deal property list (`configDealProps`) -/

/-- The fixed `baseProps` array of `configDealProps`. -/
def baseProps : List String := ["dealname", "dealstage", "pipeline", "hs_currency"]

/-- JavaScript `Array.from(new Set(l))`: removes duplicates keeping the first
occurrence of each element; `seen` accumulates the elements already kept. -/
def jsSetDedupAux : List String → List String → List String
  | [], _ => []
  | x :: xs, seen =>
    if x ∈ seen then jsSetDedupAux xs seen
    else x :: jsSetDedupAux xs (x :: seen)

/-- JavaScript `Array.from(new Set(l))` from the empty seen set. -/
def jsSetDedup (l : List String) : List String := jsSetDedupAux l []

/-- Model of `configDealProps()`:
`features.map(f => f.fromDealProperty).filter(Boolean)` keeps the present,
non-empty (truthy) property names, then the result is
`Array.from(new Set([...baseProps, ...featureProps]))`. -/
def configDealProps (cfg : CalcCfg) : List String :=
  let featureProps :=
    (cfg.features.filterMap (fun f => f.fromDealProperty)).filter (fun s => s ≠ "")
  jsSetDedup (baseProps ++ featureProps)

/-! ## Line-item property mapping (`toLineItemProperties`) -/

/-- One element of the upsert request `items` array, with the fields the
source inspects; `none` models an absent (or `undefined`/`null`) field. -/
structure JsItem where
  id : Option JsPrim
  name : String
  unitPrice : Option JsPrim
  price : Option JsPrim
  quantity : Option JsPrim
  qty : Option JsPrim
  currency : Option String
  hs_line_item_currency_code : Option String
  discountPercent : Option JsPrim
  discountAmount : Option JsPrim
  term : Option JsPrim
deriving DecidableEq, Repr

/-- Model of `toLineItemProperties(item)`:
`price = String(item.unitPrice ?? item.price ?? 0)`,
`quantity = String(item.quantity ?? item.qty ?? 1)`,
`hs_line_item_currency_code = item.currency || item.hs_line_item_currency_code || 'USD'`;
the two discount fields are set (stringified) exactly when the input field is
non-null, `recurringbillingfrequency` exactly when `item.term` is truthy. -/
def toLineItemProperties (item : JsItem) : LineItemProps :=
  { name := item.name
    price := ((item.unitPrice.orElse (fun _ => item.price)).getD (.num 0)).toJsString
    quantity := ((item.quantity.orElse (fun _ => item.qty)).getD (.num 1)).toJsString
    hs_line_item_currency_code :=
      jsOrStr item.currency (jsOrStr item.hs_line_item_currency_code "USD")
    hs_discount_percentage := item.discountPercent.map JsPrim.toJsString
    hs_discount_amount := item.discountAmount.map JsPrim.toJsString
    recurringbillingfrequency :=
      match item.term with
      | some v => if v.truthy then some v.toJsString else none
      | none => none }

/-! ## Upsert partition -/

/-- Truthiness of the `id` field: `if (it.id)` in the source. -/
def idTruthy (o : Option JsPrim) : Bool :=
  match o with
  | some v => v.truthy
  | none => false

/-- The single association attached to every create input:
`{ to: { id: String(dealId) }, types: [{ associationCategory: 'HUBSPOT_DEFINED',
associationTypeId: 20 }] }`. -/
def dealAssociation (dealIdStr : String) : Association :=
  { targetId := dealIdStr, associationCategory := "HUBSPOT_DEFINED", associationTypeId := 20 }

/-- The create input built for an item without a truthy `id`. -/
def mkCreateInput (dealIdStr : String) (it : JsItem) : BatchInput :=
  { id := none
    properties := toLineItemProperties it
    associations := [dealAssociation dealIdStr] }

/-- The update input built for an item with a truthy `id`:
`{ id: String(it.id), properties: toLineItemProperties(it) }`, no
associations key. -/
def mkUpdateInput (it : JsItem) : BatchInput :=
  { id := some ((it.id.getD (.str "")).toJsString)
    properties := toLineItemProperties it
    associations := [] }

/-- Model of the `for (const it of items)` partition loop of the upsert
handler: returns `(createInputs, updateInputs)` in input order. -/
def partitionItems (dealIdStr : String) : List JsItem → List BatchInput × List BatchInput
  | [] => ([], [])
  | it :: rest =>
    let p := partitionItems dealIdStr rest
    if idTruthy it.id then (p.1, mkUpdateInput it :: p.2)
    else (mkCreateInput dealIdStr it :: p.1, p.2)

/-! ## Endpoint handlers

Each handler takes the request data plus an oracle describing what the
upstream API would answer to each call, and returns the HTTP response
together with the list of upstream calls actually issued, in order. -/

/-- Model of `GET /api/jwt`: `!dealId` (absent or falsy) gives the plain-text
400 `dealId required`; otherwise a token is minted, or — when `jwt.sign`
throws (`signOk = false`, e.g. an unset secret) — the plain-text 500 is
sent.  The minted token is returned alongside; its wire body is the token
serialisation, modelled as opaque text. -/
def jwtHandler (secret : String) (now : Nat) (dealId : Option JsPrim)
    (signOk : Bool) : Response × Option Token :=
  match dealId with
  | none => ({ status := 400, body := .text "dealId required" }, none)
  | some d =>
    if d.truthy then
      if signOk then
        ({ status := 200, body := .text "<serialized token>" },
          some (jwtSign d.toJsString secret now))
      else ({ status := 500, body := .text "Failed to mint JWT" }, none)
    else ({ status := 400, body := .text "dealId required" }, none)

/-- Model of `GET /api/calc-config`: always 200 with the JSON-serialised
current config (contents not tracked). -/
def calcConfigHandler (_cfg : CalcCfg) : Response :=
  { status := 200, body := .okJson }

/-- Model of `POST /api/reload-config`: re-runs `loadConfig()` on the
current on-disk read outcome and answers 200
`{ ok: true, features: CALC_CFG.features.length }` (contents not tracked);
returns the new in-memory config alongside. -/
def reloadConfigHandler (readResult : Option RawCfg) : CalcCfg × Response :=
  (loadConfig readResult, { status := 200, body := .okJson })

/-- Model of `GET /api/deals/:id`: verify the token, reject with 403 on a
deal mismatch, otherwise issue the upstream GET with the configured property
list and relay its outcome. -/
def getDealHandler (cfg : CalcCfg) (secret : String) (now : Nat)
    (id : String) (t : Option Token) (upstream : Except UpstreamErr Unit) :
    Response × List UpstreamCall :=
  match jwtVerifyOpt t secret clockTolerance now with
  | .error e => (verifyCatch "Request failed" e, [])
  | .ok payload =>
    if payload.dealId ≠ id then (mismatch403, [])
    else
      match upstream with
      | .ok _ => ({ status := 200, body := .okJson }, [.getDeal id (configDealProps cfg)])
      | .error err => (upstreamCatch "Request failed" err, [.getDeal id (configDealProps cfg)])

/-- Model of `PATCH /api/deals/:id`: same guard sequence as the read, then
one upstream PATCH forwarding the supplied properties. -/
def patchDealHandler (secret : String) (now : Nat) (id : String)
    (t : Option Token) (properties : List (String × String))
    (upstream : Except UpstreamErr Unit) : Response × List UpstreamCall :=
  match jwtVerifyOpt t secret clockTolerance now with
  | .error e => (verifyCatch "Deal update failed" e, [])
  | .ok payload =>
    if payload.dealId ≠ id then (mismatch403, [])
    else
      match upstream with
      | .ok _ => ({ status := 200, body := .okJson }, [.patchDeal id properties])
      | .error err => (upstreamCatch "Deal update failed" err, [.patchDeal id properties])

/-! ### Association pagination -/

/-- One element of an association page: `r.to?.id` may be absent. -/
structure AssocResult where
  targetId : Option String
deriving DecidableEq, Repr

/-- One page of the v4 associations listing: `data.results` plus the
optional `data.paging.next.after` cursor. -/
structure AssocPage where
  results : List AssocResult
  nextAfter : Option String
deriving DecidableEq, Repr

/-- Model of the `do { ... } while (after)` loop of
`getAssociatedLineItemIds`.  The oracle list gives, in order, the outcome of
each page fetch the loop performs; `after` is the cursor sent with the next
fetch.  The loop pushes `String(r.to.id)` for every result carrying an id,
then continues while the page supplies a next cursor; a thrown axios error
aborts it.  An exhausted oracle ends the loop (the theorems only use oracles
long enough for the cursors they contain). -/
def assocLoop (dealId : String) (after : Option String) :
    List (Except UpstreamErr AssocPage) →
    Except UpstreamErr (List String) × List UpstreamCall
  | [] => (.ok [], [])
  | r :: rest =>
    match r with
    | .error e => (.error e, [.getAssociationsPage dealId after])
    | .ok page =>
      let ids := page.results.filterMap (fun a => a.targetId)
      match page.nextAfter with
      | some a =>
        let tail := assocLoop dealId (some a) rest
        (tail.1.map (fun ids2 => ids ++ ids2),
          .getAssociationsPage dealId after :: tail.2)
      | none => (.ok ids, [.getAssociationsPage dealId after])

/-- Model of `GET /api/deals/:id/line-items`: verify and match the token,
page through the associations, return `{ results: [] }` without a batch read
when no ids were collected, otherwise issue one batch read and relay its
outcome. -/
def listLineItemsHandler (secret : String) (now : Nat) (id : String)
    (t : Option Token) (pageOracle : List (Except UpstreamErr AssocPage))
    (readRes : Except UpstreamErr Unit) : Response × List UpstreamCall :=
  match jwtVerifyOpt t secret clockTolerance now with
  | .error e => (verifyCatch "Line item read failed" e, [])
  | .ok payload =>
    if payload.dealId ≠ id then (mismatch403, [])
    else
      match assocLoop id none pageOracle with
      | (.error err, calls) => (upstreamCatch "Line item read failed" err, calls)
      | (.ok ids, calls) =>
        if ids.isEmpty then ({ status := 200, body := .okJson }, calls)
        else
          match readRes with
          | .ok _ => ({ status := 200, body := .okJson }, calls ++ [.batchRead ids])
          | .error err =>
            (upstreamCatch "Line item read failed" err, calls ++ [.batchRead ids])

/-! ### Upsert -/

/-- The JSON body of `POST /api/line-items/upsert`; `items` is `none` when
the field is absent or not an array (`!Array.isArray(items)`). -/
structure UpsertBody where
  dealId : Option JsPrim
  t : Option Token
  items : Option (List JsItem)
deriving DecidableEq, Repr

/-- The two conditional batch calls of the upsert handler: batch-create is
issued when `createInputs` is non-empty; if it throws, the handler aborts
(so batch-update is skipped); batch-update is issued when `updateInputs` is
non-empty.  Returns the overall outcome and the calls issued. -/
def runBatches (creates updates : List BatchInput)
    (createRes updateRes : Except UpstreamErr Unit) :
    Except UpstreamErr Unit × List UpstreamCall :=
  if creates.isEmpty then
    if updates.isEmpty then (.ok (), [])
    else (updateRes, [.batchUpdate updates])
  else
    match createRes with
    | .error e => (.error e, [.batchCreate creates])
    | .ok _ =>
      if updates.isEmpty then (.ok (), [.batchCreate creates])
      else (updateRes, [.batchCreate creates, .batchUpdate updates])

/-- Model of `POST /api/line-items/upsert`: the 400 validation guard
(`!dealId || !t || !Array.isArray(items)` with JavaScript truthiness), token
verification, the 403 deal-mismatch guard
(`String(payload.dealId) !== String(dealId)`), then the partition and the
two conditional batch calls. -/
def upsertHandler (secret : String) (now : Nat) (body : UpsertBody)
    (createRes updateRes : Except UpstreamErr Unit) :
    Response × List UpstreamCall :=
  match body.dealId, body.t, body.items with
  | some d, some tok, some items =>
    if d.truthy then
      match jwtVerify tok secret clockTolerance now with
      | .error e => (verifyCatch "Upsert failed" e, [])
      | .ok payload =>
        if payload.dealId ≠ d.toJsString then (mismatch403, [])
        else
          let p := partitionItems d.toJsString items
          match runBatches p.1 p.2 createRes updateRes with
          | (.ok _, calls) => ({ status := 200, body := .okJson }, calls)
          | (.error err, calls) => (upstreamCatch "Upsert failed" err, calls)
    else ({ status := 400, body := .errorJson "Missing dealId, t, or items[]" none none }, [])
  | _, _, _ =>
    ({ status := 400, body := .errorJson "Missing dealId, t, or items[]" none none }, [])

/-- Number of batch-create calls in a call list. -/
def countBatchCreate (calls : List UpstreamCall) : Nat :=
  (calls.filter (fun c => match c with | .batchCreate _ => true | _ => false)).length

/-- Number of batch-update calls in a call list. -/
def countBatchUpdate (calls : List UpstreamCall) : Nat :=
  (calls.filter (fun c => match c with | .batchUpdate _ => true | _ => false)).length

/-- A sample upsert item with only a name, used to instantiate theorems at
concrete inputs. -/
def plainItem : JsItem :=
  { id := none, name := "A", unitPrice := none, price := none, quantity := none,
    qty := none, currency := none, hs_line_item_currency_code := none,
    discountPercent := none, discountAmount := none, term := none }

/-- Number of batch-read calls in a call list. -/
def countBatchRead (calls : List UpstreamCall) : Nat :=
  (calls.filter (fun c => match c with | .batchRead _ => true | _ => false)).length

/-- A page sequence as the upstream pagination contract delivers it: at
least one page, every page except the last carries a next cursor, and the
last page carries none. -/
def pagesChained : List AssocPage → Bool
  | [] => false
  | [p] => p.nextAfter.isNone
  | p :: rest => p.nextAfter.isSome && pagesChained rest

/-- The association-page fetches the pagination loop performs on a page
sequence: one per page, each carrying the cursor delivered by the previous
page (`after` for the first). -/
def expectedPageCalls (dealId : String) (after : Option String) :
    List AssocPage → List UpstreamCall
  | [] => []
  | p :: rest =>
    .getAssociationsPage dealId after :: expectedPageCalls dealId p.nextAfter rest

/-! ## Helper lemmas -/

/-- Membership in the JavaScript set-dedup: an element appears in the output
iff it appears in the input and was not already seen. -/
theorem mem_jsSetDedupAux (x : String) :
    ∀ (l seen : List String), x ∈ jsSetDedupAux l seen ↔ x ∈ l ∧ x ∉ seen := by
  intro l
  induction l with
  | nil => intro seen; simp [jsSetDedupAux]
  | cons y ys ih =>
    intro seen
    by_cases hy : y ∈ seen
    · rw [jsSetDedupAux, if_pos hy, ih]
      constructor
      · rintro ⟨hx, hns⟩
        exact ⟨List.mem_cons_of_mem _ hx, hns⟩
      · rintro ⟨hx, hns⟩
        rcases List.mem_cons.mp hx with rfl | hx
        · exact absurd hy hns
        · exact ⟨hx, hns⟩
    · rw [jsSetDedupAux, if_neg hy]
      constructor
      · intro hx
        rcases List.mem_cons.mp hx with rfl | hx
        · exact ⟨List.mem_cons_self _ _, hy⟩
        · rcases (ih (y :: seen)).mp hx with ⟨h1, h2⟩
          refine ⟨List.mem_cons_of_mem _ h1, fun hc => h2 (List.mem_cons_of_mem _ hc)⟩
      · rintro ⟨hx, hns⟩
        rcases List.mem_cons.mp hx with rfl | hx
        · exact List.mem_cons_self _ _
        · by_cases hxy : x = y
          · subst hxy; exact List.mem_cons_self _ _
          · exact List.mem_cons_of_mem _
              ((ih (y :: seen)).mpr ⟨hx, by simp [hxy, hns]⟩)

/-- The JavaScript set-dedup output never repeats an element. -/
theorem nodup_jsSetDedupAux :
    ∀ (l seen : List String), (jsSetDedupAux l seen).Nodup := by
  intro l
  induction l with
  | nil => intro seen; simp [jsSetDedupAux]
  | cons y ys ih =>
    intro seen
    by_cases hy : y ∈ seen
    · rw [jsSetDedupAux, if_pos hy]; exact ih seen
    · rw [jsSetDedupAux, if_neg hy]
      refine List.Nodup.cons ?_ (ih (y :: seen))
      intro hc
      exact ((mem_jsSetDedupAux y ys (y :: seen)).mp hc).2 (List.mem_cons_self _ _)

/-- The partition loop, in closed form: creates are the items without a
truthy id, updates the items with one, both in input order. -/
theorem partitionItems_eq (dealIdStr : String) (items : List JsItem) :
    partitionItems dealIdStr items =
      ((items.filter (fun it => ¬ idTruthy it.id)).map (mkCreateInput dealIdStr),
       (items.filter (fun it => idTruthy it.id)).map mkUpdateInput) := by
  induction items with
  | nil => simp [partitionItems]
  | cons it rest ih =>
    by_cases h : idTruthy it.id
    · simp [partitionItems, ih, h, List.filter_cons]
    · simp [partitionItems, ih, h, List.filter_cons]

/-! ## Claim C4 -/

/-- C4: for every loaded configuration, the deal-property list requested
from the external API equals the duplicate-free union of the fixed base
property set and every non-empty `fromDealProperty` declared in the
configuration features: the computed list has no duplicates, and its
members are exactly the base properties together with the present, non-empty
`fromDealProperty` values. -/
theorem C4_deal_props_union (cfg : CalcCfg) :
    (configDealProps cfg).Nodup ∧
    ∀ x : String, x ∈ configDealProps cfg ↔
      (x ∈ baseProps ∨ ∃ f ∈ cfg.features, f.fromDealProperty = some x ∧ x ≠ "") := by
  constructor
  · exact nodup_jsSetDedupAux _ []
  · intro x
    rw [configDealProps]
    simp only [jsSetDedup, mem_jsSetDedupAux, List.not_mem_nil, not_false_iff, and_true,
      List.mem_append, List.mem_filter, List.mem_filterMap]
    constructor
    · rintro (hb | ⟨⟨f, hf, hprop⟩, hne⟩)
      · exact Or.inl hb
      · exact Or.inr ⟨f, hf, hprop, by simpa using hne⟩
    · rintro (hb | ⟨f, hf, hprop, hne⟩)
      · exact Or.inl hb
      · exact Or.inr ⟨⟨f, hf, hprop⟩, by simpa using hne⟩

/-! ## Claim C3 -/

/-- C3: on any read or parse failure (`none` outcome) the config loader
substitutes the empty default structure — no features, empty standard and
options catalogs — and, being a total function, never crashes; the manual
reload endpoint re-runs exactly the same load on the current on-disk
outcome and answers 200 within the running process. -/
theorem C3_config_default_on_failure_and_reload :
    loadConfig none = defaultCfg ∧
    defaultCfg.features = [] ∧
    defaultCfg.lineItems.standard = [] ∧
    defaultCfg.lineItems.options = [] ∧
    ∀ r : Option RawCfg,
      (reloadConfigHandler r).1 = loadConfig r ∧ (reloadConfigHandler r).2.status = 200 := by
  refine ⟨rfl, rfl, rfl, rfl, ?_⟩
  intro r
  exact ⟨rfl, rfl⟩

/-- C3 witness: the failure outcome yields the default config, and a
concrete reload re-runs the load on the current outcome. -/
theorem C3_config_witness :
    loadConfig none = defaultCfg ∧
    (reloadConfigHandler (some { featuresArr := none, lineItems := none })).1
      = loadConfig (some { featuresArr := none, lineItems := none }) :=
  ⟨C3_config_default_on_failure_and_reload.1,
   (C3_config_default_on_failure_and_reload.2.2.2.2
     (some { featuresArr := none, lineItems := none })).1⟩

/-- C4 witness: on a concrete config with a declared property, an empty one
and a missing one, the declared property is requested and the list has no
duplicates. -/
theorem C4_deal_props_witness :
    "custom_x" ∈ configDealProps
      { features := [{ fromDealProperty := some "custom_x" },
                     { fromDealProperty := some "" }, { fromDealProperty := none }],
        lineItems := { standard := [], options := [] } } ∧
    (configDealProps
      { features := [{ fromDealProperty := some "custom_x" },
                     { fromDealProperty := some "" }, { fromDealProperty := none }],
        lineItems := { standard := [], options := [] } }).Nodup :=
  ⟨((C4_deal_props_union
      { features := [{ fromDealProperty := some "custom_x" },
                     { fromDealProperty := some "" }, { fromDealProperty := none }],
        lineItems := { standard := [], options := [] } }).2 "custom_x").mpr
      (Or.inr ⟨{ fromDealProperty := some "custom_x" }, by decide, rfl, by decide⟩),
   (C4_deal_props_union
      { features := [{ fromDealProperty := some "custom_x" },
                     { fromDealProperty := some "" }, { fromDealProperty := none }],
        lineItems := { standard := [], options := [] } }).1⟩

/-! ## Claim C2 -/

/-- C2 counterexample: a token minted at time 0 carries expiry 300, yet when
presented at time 302 — strictly after its stated expiry, inside the
5-second clock-tolerance window — verification succeeds, contradicting the
claim that verification fails at every time past expiry, including times
within the tolerance allowance. -/
theorem C2_cex_accepted_past_expiry :
    (jwtSign "7001" "s" 0).payload.exp = 300 ∧
    300 < 302 ∧
    302 < (jwtSign "7001" "s" 0).payload.exp + clockTolerance ∧
    jwtVerify (jwtSign "7001" "s" 0) "s" clockTolerance 302 =
      .ok { dealId := "7001", iat := 0, exp := 300 } := by
  refine ⟨rfl, by decide, by decide, rfl⟩

/-- C2 amended: every token is issued with a 5-minute (300-second) validity
window, and the 5-second clock tolerance of verification extends acceptance
past the stated expiry: a correctly-signed token presented strictly before
`exp + 5` seconds still verifies, and verification fails with the
authentication error `jwt expired` exactly from `exp + 5` seconds onward. -/
theorem C2_amended_five_minute_window_with_tolerance
    (dealId secret : String) (t0 now : Nat) :
    (jwtSign dealId secret t0).payload.exp = (jwtSign dealId secret t0).payload.iat + 300 ∧
    (t0 + 300 + clockTolerance ≤ now →
      jwtVerify (jwtSign dealId secret t0) secret clockTolerance now = .error .expired) ∧
    (now < t0 + 300 + clockTolerance →
      jwtVerify (jwtSign dealId secret t0) secret clockTolerance now =
        .ok (jwtSign dealId secret t0).payload) := by
  refine ⟨rfl, ?_, ?_⟩
  · intro h
    simp [jwtVerify, jwtSign, h]
  · intro h
    simp [jwtVerify, jwtSign, Nat.not_le_of_lt h]

/-- C2 witness: at concrete inputs, a token minted at 0 is rejected as
expired at time 305 and accepted at time 304. -/
theorem C2_amended_witness :
    jwtVerify (jwtSign "7001" "s" 0) "s" clockTolerance 305 = .error .expired ∧
    jwtVerify (jwtSign "7001" "s" 0) "s" clockTolerance 304 =
      .ok { dealId := "7001", iat := 0, exp := 300 } :=
  ⟨(C2_amended_five_minute_window_with_tolerance "7001" "s" 0 305).2.1 (by decide),
   (C2_amended_five_minute_window_with_tolerance "7001" "s" 0 304).2.2 (by decide)⟩

/-- Verification of a freshly minted, still-valid token succeeds and yields
the minted payload. -/
theorem jwtVerify_sign_ok (d s : String) (t0 now : Nat)
    (h : now < t0 + 300 + clockTolerance) :
    jwtVerify (jwtSign d s t0) s clockTolerance now =
      .ok { dealId := d, iat := t0, exp := t0 + 300 } := by
  simp [jwtVerify, jwtSign, Nat.not_le_of_lt h]

/-! ## Claim C1 -/

/-- C1: a still-valid token minted for deal `X`, presented on any of the
four protected endpoints naming a different deal `Y` (deal read, deal
patch, line-item list, upsert), is rejected with the 403 `Deal mismatch`
JSON authorization error, whatever the upstream would have answered — and
no upstream call is made.  (For the upsert the deal identifier sits in the
JSON body, where an identifier is a truthy value, hence `Y ≠ ""`.) -/
theorem C1_cross_deal_token_rejected_403
    (cfg : CalcCfg) (secret X Y : String) (t0 now : Nat)
    (properties : List (String × String)) (items : List JsItem)
    (pageOracle : List (Except UpstreamErr AssocPage))
    (u1 u2 u3 u4 u5 : Except UpstreamErr Unit)
    (hvalid : now < t0 + 300 + clockTolerance) (hne : X ≠ Y) (hY : Y ≠ "") :
    getDealHandler cfg secret now Y (some (jwtSign X secret t0)) u1 = (mismatch403, []) ∧
    patchDealHandler secret now Y (some (jwtSign X secret t0)) properties u2
      = (mismatch403, []) ∧
    listLineItemsHandler secret now Y (some (jwtSign X secret t0)) pageOracle u3
      = (mismatch403, []) ∧
    upsertHandler secret now
      { dealId := some (.str Y), t := some (jwtSign X secret t0), items := some items } u4 u5
      = (mismatch403, []) ∧
    mismatch403.status = 403 ∧ mismatch403.body.hasErrorField = true := by
  have hv := jwtVerify_sign_ok X secret t0 now hvalid
  refine ⟨?_, ?_, ?_, ?_, rfl, rfl⟩
  · simp [getDealHandler, jwtVerifyOpt, hv, hne]
  · simp [patchDealHandler, jwtVerifyOpt, hv, hne]
  · simp [listLineItemsHandler, jwtVerifyOpt, hv, hne]
  · simp [upsertHandler, JsPrim.truthy, JsPrim.toJsString, hY, hv, hne]

/-- C1 witness: concrete instance — a token for deal `1`, presented at time
0 on each endpoint naming deal `2`, yields the 403 mismatch and no upstream
call. -/
theorem C1_cross_deal_witness :
    getDealHandler defaultCfg "s" 0 "2" (some (jwtSign "1" "s" 0)) (.ok ())
      = (mismatch403, []) ∧
    patchDealHandler "s" 0 "2" (some (jwtSign "1" "s" 0)) [] (.ok ())
      = (mismatch403, []) ∧
    listLineItemsHandler "s" 0 "2" (some (jwtSign "1" "s" 0)) [] (.ok ())
      = (mismatch403, []) ∧
    upsertHandler "s" 0
      { dealId := some (.str "2"), t := some (jwtSign "1" "s" 0), items := some [] }
      (.ok ()) (.ok ()) = (mismatch403, []) ∧
    mismatch403.status = 403 ∧ mismatch403.body.hasErrorField = true :=
  C1_cross_deal_token_rejected_403 defaultCfg "s" "1" "2" 0 0 [] [] [] (.ok ()) (.ok ())
    (.ok ()) (.ok ()) (.ok ()) (by decide) (by decide) (by decide)

/-! ## Claim C10 -/

/-- C10: on every protected endpoint, a rejected request issues no upstream
call.  Token-verification failure (including a missing token) and a
deal-mismatch each yield their error response with an empty call list on
deal read, deal patch and line-item list; on the upsert, failed request
validation (missing or falsy `dealId`, missing `t`, missing or non-array
`items`) yields the 400 with no call, and verification failure or mismatch
likewise yield their error with no call. -/
theorem C10_rejected_requests_issue_no_upstream_call
    (cfg : CalcCfg) (secret : String) (now : Nat) (id : String) (t : Option Token)
    (properties : List (String × String)) (body : UpsertBody)
    (pageOracle : List (Except UpstreamErr AssocPage))
    (u1 u2 u3 u4 u5 : Except UpstreamErr Unit) :
    (∀ e, jwtVerifyOpt t secret clockTolerance now = .error e →
      getDealHandler cfg secret now id t u1 = (verifyCatch "Request failed" e, []) ∧
      patchDealHandler secret now id t properties u2
        = (verifyCatch "Deal update failed" e, []) ∧
      listLineItemsHandler secret now id t pageOracle u3
        = (verifyCatch "Line item read failed" e, [])) ∧
    (∀ p, jwtVerifyOpt t secret clockTolerance now = .ok p → p.dealId ≠ id →
      getDealHandler cfg secret now id t u1 = (mismatch403, []) ∧
      patchDealHandler secret now id t properties u2 = (mismatch403, []) ∧
      listLineItemsHandler secret now id t pageOracle u3 = (mismatch403, [])) ∧
    ((body.dealId = none ∨ body.t = none ∨ body.items = none ∨
        body.dealId.elim True (fun d => ¬ d.truthy)) →
      upsertHandler secret now body u4 u5
        = ({ status := 400, body := .errorJson "Missing dealId, t, or items[]" none none }, [])) ∧
    (∀ d tok items e, body.dealId = some d → body.t = some tok → body.items = some items →
      d.truthy → jwtVerify tok secret clockTolerance now = .error e →
      upsertHandler secret now body u4 u5 = (verifyCatch "Upsert failed" e, [])) ∧
    (∀ d tok items p, body.dealId = some d → body.t = some tok → body.items = some items →
      d.truthy → jwtVerify tok secret clockTolerance now = .ok p →
      p.dealId ≠ d.toJsString →
      upsertHandler secret now body u4 u5 = (mismatch403, [])) := by
  obtain ⟨bd, bt, bi⟩ := body
  refine ⟨?_, ?_, ?_, ?_, ?_⟩
  · intro e he
    exact ⟨by simp [getDealHandler, he], by simp [patchDealHandler, he],
      by simp [listLineItemsHandler, he]⟩
  · intro p hp hne
    exact ⟨by simp [getDealHandler, hp, hne], by simp [patchDealHandler, hp, hne],
      by simp [listLineItemsHandler, hp, hne]⟩
  · rintro (h | h | h | h)
    · subst h; rcases bt with _ | tok <;> rcases bi with _ | items <;> rfl
    · subst h; rcases bd with _ | d <;> rcases bi with _ | items <;> rfl
    · subst h; rcases bd with _ | d <;> rcases bt with _ | tok <;> rfl
    · rcases bd with _ | d
      · rcases bt with _ | tok <;> rcases bi with _ | items <;> rfl
      · rcases bt with _ | tok <;> rcases bi with _ | items <;>
          simp_all [upsertHandler]
  · rintro d tok items e rfl rfl rfl htr he
    simp [upsertHandler, htr, he]
  · rintro d tok items p rfl rfl rfl htr hp hne
    simp [upsertHandler, htr, hp, hne]

/-- C10 witness: concrete rejected requests — an expired token on the three
read/patch/list endpoints and on the upsert, a missing-items upsert body,
and a cross-deal upsert — all answer their error with an empty upstream
call list. -/
theorem C10_rejection_witness :
    getDealHandler defaultCfg "s" 400 "1" (some (jwtSign "1" "s" 0)) (.ok ())
      = (verifyCatch "Request failed" .expired, []) ∧
    upsertHandler "s" 0
      { dealId := some (.str "1"), t := some (jwtSign "1" "s" 0), items := none }
      (.ok ()) (.ok ())
      = ({ status := 400, body := .errorJson "Missing dealId, t, or items[]" none none }, []) ∧
    upsertHandler "s" 0
      { dealId := some (.str "9"), t := some (jwtSign "1" "s" 0), items := some [] }
      (.ok ()) (.ok ()) = (mismatch403, []) := by
  refine ⟨?_, ?_, ?_⟩
  · exact ((C10_rejected_requests_issue_no_upstream_call defaultCfg "s" 400 "1"
      (some (jwtSign "1" "s" 0)) []
      { dealId := some (.str "1"), t := some (jwtSign "1" "s" 0), items := none }
      [] (.ok ()) (.ok ()) (.ok ()) (.ok ()) (.ok ())).1 .expired rfl).1
  · exact (C10_rejected_requests_issue_no_upstream_call defaultCfg "s" 0 "1"
      (some (jwtSign "1" "s" 0)) []
      { dealId := some (.str "1"), t := some (jwtSign "1" "s" 0), items := none }
      [] (.ok ()) (.ok ()) (.ok ()) (.ok ()) (.ok ())).2.2.1 (by simp)
  · exact (C10_rejected_requests_issue_no_upstream_call defaultCfg "s" 0 "1"
      (some (jwtSign "1" "s" 0)) []
      { dealId := some (.str "9"), t := some (jwtSign "1" "s" 0), items := some [] }
      [] (.ok ()) (.ok ()) (.ok ()) (.ok ()) (.ok ())).2.2.2.2 (.str "9")
      (jwtSign "1" "s" 0) [] { dealId := "1", iat := 0, exp := 300 } rfl rfl rfl
      (by decide) rfl (by decide)

/-- Batch-create is issued exactly when there is at least one create input,
and then exactly once, whatever the upstream answers. -/
theorem runBatches_create_count (c u : List BatchInput)
    (cr ur : Except UpstreamErr Unit) :
    countBatchCreate (runBatches c u cr ur).2 = if c.isEmpty then 0 else 1 := by
  rcases cr with e | _ <;> rcases c with _ | ⟨x, xs⟩ <;> rcases u with _ | ⟨y, ys⟩ <;>
    rcases ur with e2 | _ <;> simp [runBatches, countBatchCreate]

/-- Batch-update is issued at most once, and only when there is at least
one update input. -/
theorem runBatches_update_count (c u : List BatchInput)
    (cr ur : Except UpstreamErr Unit) :
    countBatchUpdate (runBatches c u cr ur).2 ≤ 1 ∧
    (1 ≤ countBatchUpdate (runBatches c u cr ur).2 → ¬ u.isEmpty) := by
  rcases cr with e | _ <;> rcases c with _ | ⟨x, xs⟩ <;> rcases u with _ | ⟨y, ys⟩ <;>
    rcases ur with e2 | _ <;> simp [runBatches, countBatchUpdate]

/-- An authorized upsert issues exactly the calls of `runBatches` on the
partition of its items. -/
theorem upsertHandler_calls_authorized (secret : String) (now : Nat)
    (d : JsPrim) (tok : Token) (items : List JsItem)
    (cr ur : Except UpstreamErr Unit) (p : Payload)
    (htr : d.truthy) (hv : jwtVerify tok secret clockTolerance now = .ok p)
    (hm : p.dealId = d.toJsString) :
    (upsertHandler secret now { dealId := some d, t := some tok, items := some items }
        cr ur).2 =
      (runBatches (partitionItems d.toJsString items).1
        (partitionItems d.toJsString items).2 cr ur).2 := by
  rcases hrb : runBatches (partitionItems d.toJsString items).1
      (partitionItems d.toJsString items).2 cr ur with ⟨out, calls⟩
  rcases out with e | u <;> simp [upsertHandler, htr, hv, hm, hrb]

/-! ## Claim C5 -/

/-- C5 counterexample: an item that carries an `id` field holding the empty
string is put into the create partition, not the update partition — the
source tests `if (it.id)` with JavaScript truthiness, so a falsy `id`
counts as absent.  At this concrete authorized request the handler issues a
batch-create and no batch-update, although its only item has an `id`
field. -/
theorem C5_cex_falsy_id_partitioned_as_create :
    ({ plainItem with id := some (.str "") } : JsItem).id = some (.str "") ∧
    (partitionItems "1" [{ plainItem with id := some (.str "") }]).2 = [] ∧
    (partitionItems "1" [{ plainItem with id := some (.str "") }]).1
      = [mkCreateInput "1" { plainItem with id := some (.str "") }] ∧
    countBatchUpdate (upsertHandler "s" 0
      { dealId := some (.str "1"), t := some (jwtSign "1" "s" 0),
        items := some [{ plainItem with id := some (.str "") }] }
      (.ok ()) (.ok ())).2 = 0 ∧
    countBatchCreate (upsertHandler "s" 0
      { dealId := some (.str "1"), t := some (jwtSign "1" "s" 0),
        items := some [{ plainItem with id := some (.str "") }] }
      (.ok ()) (.ok ())).2 = 1 := by
  refine ⟨rfl, rfl, rfl, ?_, ?_⟩ <;> rfl

/-- C5 amended: an authorized upsert partitions its items by JavaScript
truthiness of the `id` field — items with a truthy `id` become update
inputs, items whose `id` is absent or falsy (such as the empty string)
become create inputs — and issues at most one batch-create and at most one
batch-update call regardless of the number of items: batch-create exactly
once when at least one create input exists and never otherwise, and
batch-update at most once and only when at least one update input exists. -/
theorem C5_amended_truthy_partition_single_batches
    (secret X : String) (t0 now : Nat) (items : List JsItem)
    (cr ur : Except UpstreamErr Unit)
    (hvalid : now < t0 + 300 + clockTolerance) (hX : X ≠ "") :
    partitionItems X items =
      ((items.filter (fun it => ¬ idTruthy it.id)).map (mkCreateInput X),
       (items.filter (fun it => idTruthy it.id)).map mkUpdateInput) ∧
    countBatchCreate (upsertHandler secret now
        { dealId := some (.str X), t := some (jwtSign X secret t0), items := some items }
        cr ur).2 =
      (if (partitionItems X items).1.isEmpty then 0 else 1) ∧
    countBatchUpdate (upsertHandler secret now
        { dealId := some (.str X), t := some (jwtSign X secret t0), items := some items }
        cr ur).2 ≤ 1 ∧
    (1 ≤ countBatchUpdate (upsertHandler secret now
        { dealId := some (.str X), t := some (jwtSign X secret t0), items := some items }
        cr ur).2 → ¬ (partitionItems X items).2.isEmpty) := by
  have hcalls := upsertHandler_calls_authorized secret now (.str X) (jwtSign X secret t0)
    items cr ur { dealId := X, iat := t0, exp := t0 + 300 }
    (by simpa [JsPrim.truthy] using hX) (jwtVerify_sign_ok X secret t0 now hvalid) rfl
  have hts : (JsPrim.str X).toJsString = X := rfl
  rw [hts] at hcalls
  refine ⟨partitionItems_eq X items, ?_, ?_, ?_⟩
  · rw [hcalls]; exact runBatches_create_count _ _ cr ur
  · rw [hcalls]; exact (runBatches_update_count _ _ cr ur).1
  · rw [hcalls]; exact (runBatches_update_count _ _ cr ur).2

/-- C5 witness: a two-item batch — one item without an id, one with the
truthy id `123` — issues exactly one batch-create and one batch-update
call. -/
theorem C5_amended_witness :
    countBatchCreate (upsertHandler "s" 0
      { dealId := some (.str "1"), t := some (jwtSign "1" "s" 0),
        items := some [plainItem, { plainItem with id := some (.str "123") }] }
      (.ok ()) (.ok ())).2 = 1 ∧
    countBatchUpdate (upsertHandler "s" 0
      { dealId := some (.str "1"), t := some (jwtSign "1" "s" 0),
        items := some [plainItem, { plainItem with id := some (.str "123") }] }
      (.ok ()) (.ok ())).2 ≤ 1 := by
  refine ⟨?_, ?_⟩
  · exact (C5_amended_truthy_partition_single_batches "s" "1" 0 0
      [plainItem, { plainItem with id := some (.str "123") }] (.ok ()) (.ok ())
      (by decide) (by decide)).2.1
  · exact (C5_amended_truthy_partition_single_batches "s" "1" 0 0
      [plainItem, { plainItem with id := some (.str "123") }] (.ok ()) (.ok ())
      (by decide) (by decide)).2.2.1

/-! ## Claim C6 -/

/-- C6: in an upsert for deal `D`, every create input carries exactly one
association, whose target id is `String(D)` and whose type is the
`HUBSPOT_DEFINED` association type identifier 20; every update input
carries its stringified item id and no association. -/
theorem C6_create_association_update_none (d : JsPrim) (items : List JsItem) :
    (∀ inp ∈ (partitionItems d.toJsString items).1,
      inp.associations =
        [{ targetId := d.toJsString, associationCategory := "HUBSPOT_DEFINED",
           associationTypeId := 20 }] ∧ inp.id = none) ∧
    (∀ inp ∈ (partitionItems d.toJsString items).2, inp.associations = []) := by
  rw [partitionItems_eq]
  constructor
  · intro inp hinp
    rcases List.mem_map.mp hinp with ⟨it, _, rfl⟩
    exact ⟨rfl, rfl⟩
  · intro inp hinp
    rcases List.mem_map.mp hinp with ⟨it, _, rfl⟩
    rfl

/-- C6 witness: for deal 123 (a JSON number) and a concrete two-item batch,
the single create input carries exactly the one association to `"123"` with
type 20, and the single update input carries none. -/
theorem C6_association_witness :
    (mkCreateInput "123" plainItem).associations =
      [{ targetId := "123", associationCategory := "HUBSPOT_DEFINED",
         associationTypeId := 20 }] ∧
    (mkUpdateInput { plainItem with id := some (.str "9") }).associations = [] := by
  constructor
  · exact ((C6_create_association_update_none (.num 123)
      [plainItem, { plainItem with id := some (.str "9") }]).1
      (mkCreateInput "123" plainItem) (by decide)).1
  · exact (C6_create_association_update_none (.num 123)
      [plainItem, { plainItem with id := some (.str "9") }]).2
      (mkUpdateInput { plainItem with id := some (.str "9") }) (by decide)

/-- Length of the expected page-fetch call list: one fetch per page. -/
theorem expectedPageCalls_length (dealId : String) :
    ∀ (pages : List AssocPage) (after : Option String),
      (expectedPageCalls dealId after pages).length = pages.length := by
  intro pages
  induction pages with
  | nil => intro after; rfl
  | cons p rest ih => intro after; simp [expectedPageCalls, ih]

/-- The page fetches contain no batch-read call. -/
theorem countBatchRead_expectedPageCalls (dealId : String) :
    ∀ (pages : List AssocPage) (after : Option String),
      countBatchRead (expectedPageCalls dealId after pages) = 0 := by
  intro pages
  induction pages with
  | nil => intro after; rfl
  | cons p rest ih => intro after; simp [expectedPageCalls, countBatchRead] at ih ⊢; exact ih _

/-- Batch-read counting distributes over call-list concatenation. -/
theorem countBatchRead_append (a b : List UpstreamCall) :
    countBatchRead (a ++ b) = countBatchRead a + countBatchRead b := by
  simp [countBatchRead, List.filter_append]

/-- On a wellformed page sequence the pagination loop succeeds, collects the
page-order concatenation of the delivered target ids, and performs exactly
one fetch per page, each carrying the cursor chained from the previous
page. -/
theorem assocLoop_chained (dealId : String) :
    ∀ (pages : List AssocPage) (after : Option String), pagesChained pages = true →
      assocLoop dealId after (pages.map Except.ok) =
        (.ok ((pages.map (fun p => p.results.filterMap (fun a => a.targetId))).flatten),
          expectedPageCalls dealId after pages) := by
  intro pages
  induction pages with
  | nil => intro after h; simp [pagesChained] at h
  | cons p rest ih =>
    intro after h
    rcases rest with _ | ⟨q, rest2⟩
    · have hnone : p.nextAfter = none := by
        simpa [pagesChained, Option.isNone_iff_eq_none] using h
      simp [assocLoop, hnone, expectedPageCalls]
    · have h12 : p.nextAfter.isSome = true ∧ pagesChained (q :: rest2) = true := by
        simpa [pagesChained] using h
      obtain ⟨a, ha⟩ := Option.isSome_iff_exists.mp h12.1
      have htail := ih (some a) h12.2
      have hstep : assocLoop dealId after (List.map Except.ok (p :: q :: rest2)) =
          ((assocLoop dealId (some a) (List.map Except.ok (q :: rest2))).1.map
             (fun ids2 => p.results.filterMap (fun x => x.targetId) ++ ids2),
           .getAssociationsPage dealId after ::
             (assocLoop dealId (some a) (List.map Except.ok (q :: rest2))).2) := by
        simp [assocLoop, ha]
      rw [hstep, htail]
      simp [expectedPageCalls, ha, Except.map]

/-! ## Claim C7 -/

/-- C7 counterexample: on the wellformed one-page sequence whose page
carries no results and no cursor, the authorized listing returns
`{ results: [] }` after the single page fetch and issues no batch-read call
at all, contradicting the claim that for every page sequence the collected
ids are then batch-read in a single call. -/
theorem C7_cex_no_batch_read_without_ids :
    pagesChained [{ results := [], nextAfter := none }] = true ∧
    listLineItemsHandler "s" 0 "1" (some (jwtSign "1" "s" 0))
        ([{ results := [], nextAfter := none }].map Except.ok) (.ok ())
      = ({ status := 200, body := .okJson }, [.getAssociationsPage "1" none]) ∧
    countBatchRead (listLineItemsHandler "s" 0 "1" (some (jwtSign "1" "s" 0))
        ([{ results := [], nextAfter := none }].map Except.ok) (.ok ())).2 = 0 := by
  refine ⟨rfl, rfl, rfl⟩

/-- C7 amended: on every wellformed association-page sequence, the
authorized listing collects exactly the concatenation, in page order, of
every delivered target id, fetching the pages sequentially — one fetch per
page, each carrying the cursor of the previous page — until the page with
no further cursor; it then batch-reads the collected ids in a single call
when at least one id was collected, and issues no batch-read (answering
empty results) when none was. -/
theorem C7_amended_sequential_pagination_conditional_batch_read
    (secret X : String) (t0 now : Nat) (pages : List AssocPage)
    (readRes : Except UpstreamErr Unit)
    (hvalid : now < t0 + 300 + clockTolerance) (hch : pagesChained pages = true) :
    (listLineItemsHandler secret now X (some (jwtSign X secret t0))
        (pages.map Except.ok) readRes).2 =
      expectedPageCalls X none pages ++
        (if ((pages.map (fun p => p.results.filterMap (fun a => a.targetId))).flatten).isEmpty
         then []
         else [.batchRead
            ((pages.map (fun p => p.results.filterMap (fun a => a.targetId))).flatten)]) ∧
    (expectedPageCalls X none pages).length = pages.length ∧
    countBatchRead (listLineItemsHandler secret now X (some (jwtSign X secret t0))
        (pages.map Except.ok) readRes).2 =
      (if ((pages.map (fun p => p.results.filterMap (fun a => a.targetId))).flatten).isEmpty
       then 0 else 1) := by
  have hv := jwtVerify_sign_ok X secret t0 now hvalid
  have hl := assocLoop_chained X pages none hch
  have hcalls : (listLineItemsHandler secret now X (some (jwtSign X secret t0))
      (pages.map Except.ok) readRes).2 =
      expectedPageCalls X none pages ++
        (if ((pages.map (fun p => p.results.filterMap (fun a => a.targetId))).flatten).isEmpty
         then []
         else [.batchRead
            ((pages.map (fun p => p.results.filterMap (fun a => a.targetId))).flatten)]) := by
    by_cases he : ((pages.map (fun p => p.results.filterMap (fun a => a.targetId))).flatten).isEmpty
    · simp [listLineItemsHandler, jwtVerifyOpt, hv, hl, he]
    · rcases readRes with err | u <;>
        simp [listLineItemsHandler, jwtVerifyOpt, hv, hl, he]
  refine ⟨hcalls, expectedPageCalls_length X pages none, ?_⟩
  rw [hcalls, countBatchRead_append, countBatchRead_expectedPageCalls X pages none]
  by_cases he : ((pages.map (fun p => p.results.filterMap (fun a => a.targetId))).flatten).isEmpty <;>
    simp [he, countBatchRead]

/-- C7 witness: a concrete two-page sequence (first page cursor `c`, one
result lacking a target id) yields the two chained fetches followed by one
batch-read of exactly the concatenated ids. -/
theorem C7_amended_witness :
    (listLineItemsHandler "s" 0 "1" (some (jwtSign "1" "s" 0))
        ([{ results := [{ targetId := some "11" }, { targetId := none }],
            nextAfter := some "c" },
          { results := [{ targetId := some "22" }], nextAfter := none }].map Except.ok)
        (.ok ())).2
      = [.getAssociationsPage "1" none, .getAssociationsPage "1" (some "c"),
         .batchRead ["11", "22"]] ∧
    countBatchRead (listLineItemsHandler "s" 0 "1" (some (jwtSign "1" "s" 0))
        ([{ results := [{ targetId := some "11" }, { targetId := none }],
            nextAfter := some "c" },
          { results := [{ targetId := some "22" }], nextAfter := none }].map Except.ok)
        (.ok ())).2 = 1 := by
  constructor
  · exact (C7_amended_sequential_pagination_conditional_batch_read "s" "1" 0 0
      [{ results := [{ targetId := some "11" }, { targetId := none }], nextAfter := some "c" },
       { results := [{ targetId := some "22" }], nextAfter := none }]
      (.ok ()) (by decide) (by decide)).1
  · exact (C7_amended_sequential_pagination_conditional_batch_read "s" "1" 0 0
      [{ results := [{ targetId := some "11" }, { targetId := none }], nextAfter := some "c" },
       { results := [{ targetId := some "22" }], nextAfter := none }]
      (.ok ()) (by decide) (by decide)).2.2

/-! ## Claim C9 -/

/-- C9: the item-to-properties mapping stringifies every value and supplies
defaults for absent fields: price is `String(unitPrice ?? price ?? 0)` — so
`"0"` when both are absent, the stringified `unitPrice` when present, else
the stringified `price`; quantity likewise defaults to `"1"` via
`quantity ?? qty`; currency defaults to `"USD"` when both currency fields
are absent; the two discount properties are included exactly when the
corresponding input field is non-null, and the recurring billing frequency
exactly when `term` is truthy. -/
theorem C9_property_mapping_defaults (item : JsItem) :
    (item.unitPrice = none → item.price = none →
      (toLineItemProperties item).price = "0") ∧
    (∀ v, item.unitPrice = some v →
      (toLineItemProperties item).price = v.toJsString) ∧
    (∀ v, item.unitPrice = none → item.price = some v →
      (toLineItemProperties item).price = v.toJsString) ∧
    (item.quantity = none → item.qty = none →
      (toLineItemProperties item).quantity = "1") ∧
    (∀ v, item.quantity = some v →
      (toLineItemProperties item).quantity = v.toJsString) ∧
    (∀ v, item.quantity = none → item.qty = some v →
      (toLineItemProperties item).quantity = v.toJsString) ∧
    (item.currency = none → item.hs_line_item_currency_code = none →
      (toLineItemProperties item).hs_line_item_currency_code = "USD") ∧
    (item.discountPercent = none →
      (toLineItemProperties item).hs_discount_percentage = none) ∧
    (∀ v, item.discountPercent = some v →
      (toLineItemProperties item).hs_discount_percentage = some v.toJsString) ∧
    (item.discountAmount = none →
      (toLineItemProperties item).hs_discount_amount = none) ∧
    (∀ v, item.discountAmount = some v →
      (toLineItemProperties item).hs_discount_amount = some v.toJsString) ∧
    ((toLineItemProperties item).recurringbillingfrequency.isSome ↔
      ∃ v, item.term = some v ∧ v.truthy = true) ∧
    (∀ v, item.term = some v → v.truthy = true →
      (toLineItemProperties item).recurringbillingfrequency = some v.toJsString) := by
  refine ⟨?_, ?_, ?_, ?_, ?_, ?_, ?_, ?_, ?_, ?_, ?_, ?_, ?_⟩
  · intro h1 h2; simp [toLineItemProperties, h1, h2]; decide
  · intro v hv; simp [toLineItemProperties, hv, Option.orElse]
  · intro v h1 h2; simp [toLineItemProperties, h1, h2, Option.orElse]
  · intro h1 h2; simp [toLineItemProperties, h1, h2]; decide
  · intro v hv; simp [toLineItemProperties, hv, Option.orElse]
  · intro v h1 h2; simp [toLineItemProperties, h1, h2, Option.orElse]
  · intro h1 h2; simp [toLineItemProperties, h1, h2, jsOrStr]
  · intro h1; simp [toLineItemProperties, h1]
  · intro v hv; simp [toLineItemProperties, hv]
  · intro h1; simp [toLineItemProperties, h1]
  · intro v hv; simp [toLineItemProperties, hv]
  · rcases h : item.term with _ | v
    · simp [toLineItemProperties, h]
    · by_cases ht : v.truthy <;> simp [toLineItemProperties, h, ht]
  · intro v hv ht; simp [toLineItemProperties, hv, ht]

/-- C9 witness: the bare item gets the defaults `"0"`, `"1"`, `"USD"` and
no optional property; an item with numeric unit price 25, quantity source
`qty = 2`, discount percent 10 and term `monthly` gets each value
stringified and each optional property included. -/
theorem C9_property_mapping_witness :
    (toLineItemProperties plainItem).price = "0" ∧
    (toLineItemProperties plainItem).quantity = "1" ∧
    (toLineItemProperties plainItem).hs_line_item_currency_code = "USD" ∧
    (toLineItemProperties plainItem).hs_discount_percentage = none ∧
    (toLineItemProperties plainItem).hs_discount_amount = none ∧
    (toLineItemProperties { plainItem with unitPrice := some (.num 25) }).price = "25" ∧
    (toLineItemProperties { plainItem with qty := some (.num 2) }).quantity = "2" ∧
    (toLineItemProperties { plainItem with discountPercent := some (.num 10)
      }).hs_discount_percentage = some "10" ∧
    (toLineItemProperties { plainItem with term := some (.str "monthly")
      }).recurringbillingfrequency = some "monthly" :=
  ⟨(C9_property_mapping_defaults plainItem).1 rfl rfl,
   (C9_property_mapping_defaults plainItem).2.2.2.1 rfl rfl,
   (C9_property_mapping_defaults plainItem).2.2.2.2.2.2.1 rfl rfl,
   (C9_property_mapping_defaults plainItem).2.2.2.2.2.2.2.1 rfl,
   (C9_property_mapping_defaults plainItem).2.2.2.2.2.2.2.2.2.1 rfl,
   (C9_property_mapping_defaults { plainItem with unitPrice := some (.num 25) }).2.1
     (.num 25) rfl,
   (C9_property_mapping_defaults { plainItem with qty := some (.num 2) }).2.2.2.2.2.1
     (.num 2) rfl rfl,
   (C9_property_mapping_defaults { plainItem with discountPercent := some (.num 10)
     }).2.2.2.2.2.2.2.2.1 (.num 10) rfl,
   (C9_property_mapping_defaults { plainItem with term := some (.str "monthly")
     }).2.2.2.2.2.2.2.2.2.2.2.2 (.str "monthly") rfl (by decide)⟩

/-! ## Claim C8 -/

/-- C8 counterexample: the token-mint endpoint answers a missing `dealId`
with HTTP 400 and the plain-text body `dealId required` — an error response
that is not JSON and carries no `error` field, contradicting the claim that
every error response of the service is JSON with an `error` field. -/
theorem C8_cex_jwt_endpoint_plaintext_error :
    (jwtHandler "s" 0 none true).1
      = { status := 400, body := .text "dealId required" } ∧
    (jwtHandler "s" 0 none true).1.body.hasErrorField = false ∧
    400 ≤ (jwtHandler "s" 0 none true).1.status := by
  refine ⟨rfl, rfl, by decide⟩

/-- C8 amended: with the sole exception of the token-mint endpoint — whose
validation and mint failures are plain text (`dealId required`, `Failed to
mint JWT`) — every response of the service is either a 200 success or a
JSON body carrying an `error` field, every handler totalises its errors
(none is fatal), and an upstream error is relayed with its original status
code (`e.response.status`, defaulting to 500 without a response) and its
response body attached under `hubspot`, on each of the four forwarding
endpoints. -/
theorem C8_amended_json_errors_and_upstream_relay
    (cfg : CalcCfg) (secret : String) (now : Nat) (id : String) (t : Option Token)
    (properties : List (String × String)) (body : UpsertBody)
    (pageOracle : List (Except UpstreamErr AssocPage))
    (u1 u2 u3 cr ur : Except UpstreamErr Unit) (r : Option RawCfg) :
    ((getDealHandler cfg secret now id t u1).1.status = 200 ∨
      (getDealHandler cfg secret now id t u1).1.body.hasErrorField = true) ∧
    ((patchDealHandler secret now id t properties u2).1.status = 200 ∨
      (patchDealHandler secret now id t properties u2).1.body.hasErrorField = true) ∧
    ((listLineItemsHandler secret now id t pageOracle u3).1.status = 200 ∨
      (listLineItemsHandler secret now id t pageOracle u3).1.body.hasErrorField = true) ∧
    ((upsertHandler secret now body cr ur).1.status = 200 ∨
      (upsertHandler secret now body cr ur).1.body.hasErrorField = true) ∧
    (calcConfigHandler cfg).status = 200 ∧
    (reloadConfigHandler r).2.status = 200 ∧
    (∀ name err, (upstreamCatch name err).body =
        .errorJson name (some err.message) err.data ∧
      (∀ s, err.status = some s → (upstreamCatch name err).status = s) ∧
      (err.status = none → (upstreamCatch name err).status = 500)) ∧
    (∀ p err, jwtVerifyOpt t secret clockTolerance now = .ok p → p.dealId = id →
      (getDealHandler cfg secret now id t (.error err)).1
        = upstreamCatch "Request failed" err ∧
      (patchDealHandler secret now id t properties (.error err)).1
        = upstreamCatch "Deal update failed" err ∧
      (listLineItemsHandler secret now id t [.error err] u3).1
        = upstreamCatch "Line item read failed" err) ∧
    (∀ d tok items p err ur2, body.dealId = some d → body.t = some tok →
      body.items = some items → d.truthy →
      jwtVerify tok secret clockTolerance now = .ok p → p.dealId = d.toJsString →
      ¬ (partitionItems d.toJsString items).1.isEmpty →
      (upsertHandler secret now body (.error err) ur2).1
        = upstreamCatch "Upsert failed" err) := by
  obtain ⟨bd, bt, bi⟩ := body
  have g1 : ∀ (u : Except UpstreamErr Unit),
      (getDealHandler cfg secret now id t u).1.status = 200 ∨
      (getDealHandler cfg secret now id t u).1.body.hasErrorField = true := by
    intro u
    rcases hv : jwtVerifyOpt t secret clockTolerance now with e | p
    · right; simp [getDealHandler, hv, verifyCatch, RespBody.hasErrorField]
    · by_cases hm : p.dealId = id
      · rcases u with err | x
        · right; simp [getDealHandler, hv, hm, upstreamCatch, RespBody.hasErrorField]
        · left; simp [getDealHandler, hv, hm]
      · right; simp [getDealHandler, hv, hm, mismatch403, RespBody.hasErrorField]
  have g2 : ∀ (u : Except UpstreamErr Unit),
      (patchDealHandler secret now id t properties u).1.status = 200 ∨
      (patchDealHandler secret now id t properties u).1.body.hasErrorField = true := by
    intro u
    rcases hv : jwtVerifyOpt t secret clockTolerance now with e | p
    · right; simp [patchDealHandler, hv, verifyCatch, RespBody.hasErrorField]
    · by_cases hm : p.dealId = id
      · rcases u with err | x
        · right; simp [patchDealHandler, hv, hm, upstreamCatch, RespBody.hasErrorField]
        · left; simp [patchDealHandler, hv, hm]
      · right; simp [patchDealHandler, hv, hm, mismatch403, RespBody.hasErrorField]
  have g3 : ∀ (po : List (Except UpstreamErr AssocPage)) (u : Except UpstreamErr Unit),
      (listLineItemsHandler secret now id t po u).1.status = 200 ∨
      (listLineItemsHandler secret now id t po u).1.body.hasErrorField = true := by
    intro po u
    rcases hv : jwtVerifyOpt t secret clockTolerance now with e | p
    · right; simp [listLineItemsHandler, hv, verifyCatch, RespBody.hasErrorField]
    · by_cases hm : p.dealId = id
      · rcases hal : assocLoop id none po with ⟨out, calls⟩
        rcases out with err | ids
        · right
          simp [listLineItemsHandler, hv, hm, hal, upstreamCatch, RespBody.hasErrorField]
        · by_cases he : ids.isEmpty
          · left; simp [listLineItemsHandler, hv, hm, hal, he]
          · rcases u with err | x
            · right
              simp [listLineItemsHandler, hv, hm, hal, he, upstreamCatch,
                RespBody.hasErrorField]
            · left; simp [listLineItemsHandler, hv, hm, hal, he]
      · right; simp [listLineItemsHandler, hv, hm, mismatch403, RespBody.hasErrorField]
  have g4 : ∀ (cr2 ur2 : Except UpstreamErr Unit),
      (upsertHandler secret now { dealId := bd, t := bt, items := bi } cr2 ur2).1.status
        = 200 ∨
      (upsertHandler secret now { dealId := bd, t := bt, items := bi }
        cr2 ur2).1.body.hasErrorField = true := by
    intro cr2 ur2
    rcases bd with _ | d
    · right; rfl
    rcases bt with _ | tok
    · right; rfl
    rcases bi with _ | items
    · right; rfl
    by_cases htr : d.truthy
    · rcases hv : jwtVerify tok secret clockTolerance now with e | p
      · right; simp [upsertHandler, htr, hv, verifyCatch, RespBody.hasErrorField]
      · by_cases hm : p.dealId = d.toJsString
        · rcases hb : runBatches (partitionItems d.toJsString items).1
              (partitionItems d.toJsString items).2 cr2 ur2 with ⟨out, calls⟩
          rcases out with err | x
          · right
            simp [upsertHandler, htr, hv, hm, hb, upstreamCatch, RespBody.hasErrorField]
          · left; simp [upsertHandler, htr, hv, hm, hb]
        · right; simp [upsertHandler, htr, hv, hm, mismatch403, RespBody.hasErrorField]
    · right; simp [upsertHandler, htr, RespBody.hasErrorField]
  refine ⟨g1 u1, g2 u2, g3 pageOracle u3, g4 cr ur, rfl, rfl, ?_, ?_, ?_⟩
  · intro name err
    refine ⟨rfl, ?_, ?_⟩
    · intro s hs; simp [upstreamCatch, hs]
    · intro hs; simp [upstreamCatch, hs]
  · intro p err hv hm
    refine ⟨?_, ?_, ?_⟩
    · simp [getDealHandler, hv, hm]
    · simp [patchDealHandler, hv, hm]
    · simp [listLineItemsHandler, hv, hm, assocLoop]
  · rintro d tok items p err ur2 hbd hbt hbi htr hv hm hne
    simp only at hbd hbt hbi
    subst hbd; subst hbt; subst hbi
    have hrb : runBatches (partitionItems d.toJsString items).1
        (partitionItems d.toJsString items).2 (.error err) ur2
        = (.error err, [.batchCreate (partitionItems d.toJsString items).1]) := by
      rcases hc : (partitionItems d.toJsString items).1 with _ | ⟨x, xs⟩
      · rw [hc] at hne; simp at hne
      · simp [runBatches, hc]
    simp [upsertHandler, htr, hv, hm, hrb]

/-- C8 witness: at concrete inputs — an authorized deal read whose upstream
fails with status 502 and body `bad gateway` — the handler relays 502 with
the upstream body attached, and the reload endpoint answers 200. -/
theorem C8_amended_witness :
    (getDealHandler defaultCfg "s" 0 "1" (some (jwtSign "1" "s" 0))
        (.error { status := some 502, data := some "bad gateway", message := "m" })).1
      = upstreamCatch "Request failed"
          { status := some 502, data := some "bad gateway", message := "m" } ∧
    upstreamCatch "Request failed"
        { status := some 502, data := some "bad gateway", message := "m" }
      = { status := 502,
          body := .errorJson "Request failed" (some "m") (some "bad gateway") } ∧
    (reloadConfigHandler none).2.status = 200 :=
  ⟨((C8_amended_json_errors_and_upstream_relay defaultCfg "s" 0 "1"
      (some (jwtSign "1" "s" 0)) []
      { dealId := none, t := none, items := none } [] (.ok ()) (.ok ()) (.ok ())
      (.ok ()) (.ok ()) none).2.2.2.2.2.2.2.1
      { dealId := "1", iat := 0, exp := 300 }
      { status := some 502, data := some "bad gateway", message := "m" }
      rfl rfl).1,
   rfl,
   (C8_amended_json_errors_and_upstream_relay defaultCfg "s" 0 "1"
      (some (jwtSign "1" "s" 0)) []
      { dealId := none, t := none, items := none } [] (.ok ()) (.ok ()) (.ok ())
      (.ok ()) (.ok ()) none).2.2.2.2.2.1⟩

end Toolbx
